import Mathlib

/-!
Verification of src/lib/HdtDocument.cc (HDT-Node).

Shallow embedding conventions:
- hdt::TripleString is a record of three strings; the JavaScript result
  records built by SearchDone are a separate record type TripleRecord.
- The external HDT store (hdt::HDT together with its iterator) is modelled
  by the materialized list its iterator yields in encounter order; a search
  call that raises a failure is an Except.error carrying the message.
- HDTManager::mapIndexedHDT is external and passed as a parameter of type
  String to Except String HDT: an Except.error models a thrown
  (const char*) message, an Except.ok a store pointer.
- A native pointer that may be NULL is an Option.
- Fallible native control flow (NULL dereference, an exception escaping a
  worker function uncaught, a failed assert) is an Except over Fault.
- A callback invocation is a value listing the argv the code passes; the
  completion functions return the list of invocations they perform, so
  exactly-once delivery is the list having length one.
-/

/-- One triple of the store (hdt::TripleString): three strings. -/
structure TripleString where
  subject : String
  predicate : String
  object : String
deriving DecidableEq, Repr

/-- One boundary record built by SearchDone: a JavaScript object with
subject, predicate and object properties. -/
structure TripleRecord where
  subject : String
  predicate : String
  object : String
deriving DecidableEq, Repr

/-- The external HDT store as this code uses it: hdt->search(s, p, o) yields
an iterator, modelled as the list of triples the iterator produces in
encounter order; a failure raised by the call is an Except.error. -/
structure HDT where
  search : String → String → String → Except String (List TripleString)

/-- The HdtDocument wrapper object: its hdt member is a store pointer that
may be NULL (none). -/
structure HdtDocument where
  hdt : Option HDT

/-- Outcomes of native code that are not normal returns. -/
inductive Fault where
  /-- dereferencing a NULL store pointer (hdt->search with hdt == NULL) -/
  | nullDeref : Fault
  /-- a C++ exception escaping a worker function uncaught, crossing the
  thread boundary as a raw fault -/
  | uncaughtException : String → Fault
  /-- a failed assert(...) at the boundary -/
  | assertionFailure : Fault
deriving DecidableEq, Repr

/-- JavaScript boundary values, as far as this code inspects them. -/
inductive JsValue where
  | vstr : String → JsValue
  | vfun : Nat → JsValue
  | vnull : JsValue
  | vundef : JsValue
deriving DecidableEq, Repr

/-- The IsFunction test used by Close on args[0]. -/
def JsValue.isFunction : JsValue → Bool
  | .vfun _ => true
  | _ => false

/-- String::Utf8Value conversion of the values read at this boundary. -/
def utf8Value : JsValue → String
  | .vstr s => s
  | .vnull => "null"
  | .vundef => "undefined"
  | .vfun _ => "function"

/-- CreateArgs: the task record of the open operation; the filename is a
task-owned string, hdt starts NULL and error starts empty. -/
structure CreateArgs where
  filename : String
  hdt : Option HDT
  error : String

/-- The CreateArgs constructor: filename(filename) copies the submitted
buffer, hdt(NULL); the error string is default-initialized empty. -/
def CreateArgs.init (filename : String) : CreateArgs :=
  { filename := filename, hdt := none, error := "" }

/-- SearchArgs: the task record of the search operation; the three pattern
terms are task-owned strings and the triples vector starts empty. -/
structure SearchArgs where
  hdtDocument : HdtDocument
  subject : String
  predicate : String
  object : String
  triples : List TripleString

/-- The SearchArgs constructor: subject(subject), predicate(predicate),
object(object) copy the submitted buffers; the vector is empty. -/
def SearchArgs.init (doc : HdtDocument) (s p o : String) : SearchArgs :=
  { hdtDocument := doc, subject := s, predicate := p, object := o, triples := [] }

namespace HdtDocument

/-- HdtDocument::CreateAsync: assert(args.Length() == 2), then build the
CreateArgs from Utf8Value of args[0] and queue the task. A failed assert
aborts the call: no task is queued and no callback is invoked. -/
def CreateAsync (args : List JsValue) : Except Fault CreateArgs :=
  if args.length = 2 then
    Except.ok (CreateArgs.init (utf8Value (args.headD JsValue.vundef)))
  else
    Except.error Fault.assertionFailure

/-- HdtDocument::Create, the worker phase of the open operation:
try mapIndexedHDT(filename) into args->hdt, catch (const char*) into
args->error. -/
def Create (mapIndexedHDT : String → Except String HDT) (args : CreateArgs) :
    CreateArgs :=
  match mapIndexedHDT args.filename with
  | Except.ok h => { args with hdt := some h }
  | Except.error e => { args with error := e }

/-- The HdtDocument constructor (run by HdtDocument::New): hdt(NULL). -/
def New : HdtDocument := { hdt := none }

/-- HdtDocument::CreateDone, the completion phase of the open operation:
argv starts as [Null, Undefined]; if args->hdt is set, a new document is
constructed and the hdt instance attached to it, else argv[0] becomes
Error(args->error). The callback is called exactly once. -/
def CreateDone (args : CreateArgs) : List (Option String × Option HdtDocument) :=
  match args.hdt with
  | some h => [(none, some { New with hdt := some h })]
  | none => [(some args.error, none)]

/-- HdtDocument::Destroy: if (hdt) delete it and set it NULL. -/
def Destroy (d : HdtDocument) : HdtDocument :=
  if d.hdt.isSome then { d with hdt := none } else d

/-- HdtDocument::SearchAsync: assert(args.Length() == 4), then build the
SearchArgs from Utf8Value of args[0..2] and queue the task. A failed
assert aborts the call: no task is queued and no callback is invoked. -/
def SearchAsync (doc : HdtDocument) (args : List JsValue) : Except Fault SearchArgs :=
  if args.length = 4 then
    Except.ok (SearchArgs.init doc
      (utf8Value (args.getD 0 JsValue.vundef))
      (utf8Value (args.getD 1 JsValue.vundef))
      (utf8Value (args.getD 2 JsValue.vundef)))
  else
    Except.error Fault.assertionFailure

/-- HdtDocument::Search, the worker phase of the search operation: it runs
hdtDocument->hdt->search(subject, predicate, object) and pushes every
iterated triple onto args->triples. The code does not test hdt for NULL,
so on a document without a store reference the dereference is a fault; and
the call is not wrapped in try/catch, so a failure raised by search escapes
the worker uncaught. -/
def Search (args : SearchArgs) : Except Fault SearchArgs :=
  match args.hdtDocument.hdt with
  | none => Except.error Fault.nullDeref
  | some h =>
    match h.search args.subject args.predicate args.object with
    | Except.error e => Except.error (Fault.uncaughtException e)
    | Except.ok ts => Except.ok { args with triples := args.triples ++ ts }

end HdtDocument

/-- The conversion loop of SearchDone: one boundary record per materialized
triple, in vector order. -/
def marshalTriples : List TripleString → List TripleRecord
  | [] => []
  | t :: ts =>
    { subject := t.subject, predicate := t.predicate, object := t.object }
      :: marshalTriples ts

/-- The per-triple conversion: the record carries the three components of
the triple. -/
def tripleToRecord (t : TripleString) : TripleRecord :=
  { subject := t.subject, predicate := t.predicate, object := t.object }

namespace HdtDocument

/-- HdtDocument::SearchDone, the completion phase of the search operation:
builds the record array from args->triples and invokes the callback exactly
once with argv = [Null, triples]. There is no error branch: argv[0] is
always Null. -/
def SearchDone (args : SearchArgs) : List (Option String × List TripleRecord) :=
  [(none, marshalTriples args.triples)]

/-- HdtDocument::Close: Destroy the document, then, if args.Length() >= 1
and args[0] is a function, call that function with argv = [Null]. Returns
the document state on return and the callback invocations performed. -/
def Close (d : HdtDocument) (args : List JsValue) :
    HdtDocument × List (List JsValue) :=
  let d2 := Destroy d
  match args with
  | a :: _ => if a.isFunction then (d2, [[JsValue.vnull]]) else (d2, [])
  | [] => (d2, [])

/-- HdtDocument::ClosedGetter: returns Boolean::New(!hdt) and leaves the
document it reads unchanged. -/
def ClosedGetter (d : HdtDocument) : Bool × HdtDocument :=
  (!d.hdt.isSome, d)

end HdtDocument

/-- The scheduled open task as uv_queue_work runs it: worker phase Create,
then completion phase CreateDone on its result. -/
def openRun (mapIndexedHDT : String → Except String HDT) (filename : String) :
    List (Option String × Option HdtDocument) :=
  HdtDocument.CreateDone (HdtDocument.Create mapIndexedHDT (CreateArgs.init filename))

/-- The scheduled search task as uv_queue_work runs it: worker phase Search,
then completion phase SearchDone on its result; if the worker faults, the
completion phase is never reached. -/
def searchRun (args : SearchArgs) :
    Except Fault (List (Option String × List TripleRecord)) :=
  (HdtDocument.Search args).map HdtDocument.SearchDone

/-- A caller-owned argument buffer: its contents when the submission call
reads it through String::Utf8Value, and its possibly different contents by
the time the worker phase runs (the caller may overwrite or free it after
submission). -/
structure CallerBuffer where
  atSubmission : String
  atWorkTime : String

/-- The snapshot CreateAsync takes of args[0]: the string member of
CreateArgs copies the buffer contents read at submission time. -/
def createSnapshot (buf : CallerBuffer) : CreateArgs :=
  CreateArgs.init buf.atSubmission

/-- The snapshot SearchAsync takes of args[0..2]: the three string members
of SearchArgs copy the buffer contents read at submission time. -/
def searchSnapshot (doc : HdtDocument) (s p o : CallerBuffer) : SearchArgs :=
  SearchArgs.init doc s.atSubmission p.atSubmission o.atSubmission

/-- The condition under which Close invokes a callback:
args.Length() >= 1 && args[0]->IsFunction(). -/
def callbackSupplied : List JsValue → Bool
  | a :: _ => a.isFunction
  | [] => false

/-- The operations of the code that touch the hdt member of one document
over its life: CreateDone attaching the opened store, Destroy (run directly,
by Close, and by the destructor), the ClosedGetter read, and a search
submission (which only stores the document pointer and reads hdt). -/
inductive DocEvent where
  | attach : HDT → DocEvent
  | destroy : DocEvent
  | readClosed : DocEvent
  | searchSubmit : DocEvent

/-- One operation applied to a document state. -/
def docStep (d : HdtDocument) : DocEvent → HdtDocument
  | DocEvent.attach h => { d with hdt := some h }
  | DocEvent.destroy => HdtDocument.Destroy d
  | DocEvent.readClosed => (HdtDocument.ClosedGetter d).2
  | DocEvent.searchSubmit => d

/-- A sequence of operations applied to a document state. -/
def docRun (d : HdtDocument) (es : List DocEvent) : HdtDocument :=
  es.foldl docStep d

/-! Helper lemmas. -/

/-- Destroy always leaves the hdt member NULL. -/
theorem Destroy_hdt (d : HdtDocument) : (HdtDocument.Destroy d).hdt = none := by
  unfold HdtDocument.Destroy
  cases h : d.hdt <;> simp [h]

/-- The document state Close returns is the destroyed one. -/
theorem Close_fst (d : HdtDocument) (args : List JsValue) :
    (HdtDocument.Close d args).1 = HdtDocument.Destroy d := by
  unfold HdtDocument.Close
  cases args with
  | nil => rfl
  | cons a rest => cases h : a.isFunction <;> simp [h]

/-- The callback invocations of Close: one call with argv [Null] when a
callback function is supplied first, none otherwise. -/
theorem Close_snd (d : HdtDocument) (args : List JsValue) :
    (HdtDocument.Close d args).2 =
      (if callbackSupplied args then [[JsValue.vnull]] else []) := by
  unfold HdtDocument.Close callbackSupplied
  cases args with
  | nil => rfl
  | cons a rest => cases h : a.isFunction <;> simp [h]

/-- The worker phase of the open operation on a succeeding mapIndexedHDT. -/
theorem Create_ok (m : String → Except String HDT) (args : CreateArgs) (h : HDT)
    (hm : m args.filename = Except.ok h) :
    HdtDocument.Create m args = { args with hdt := some h } := by
  unfold HdtDocument.Create
  rw [hm]

/-- The worker phase of the open operation on a throwing mapIndexedHDT. -/
theorem Create_error (m : String → Except String HDT) (args : CreateArgs) (msg : String)
    (hm : m args.filename = Except.error msg) :
    HdtDocument.Create m args = { args with error := msg } := by
  unfold HdtDocument.Create
  rw [hm]

/-- The worker phase of the search operation on an open document whose store
search succeeds: the iterated triples are appended to the vector. -/
theorem Search_ok (args : SearchArgs) (h : HDT) (ts : List TripleString)
    (hd : args.hdtDocument.hdt = some h)
    (hs : h.search args.subject args.predicate args.object = Except.ok ts) :
    HdtDocument.Search args = Except.ok { args with triples := args.triples ++ ts } := by
  rcases args with ⟨⟨od⟩, s, p, o, tr⟩
  dsimp only at hd hs ⊢
  subst hd
  simp [HdtDocument.Search, hs]

/-- The worker phase of the search operation on an open document whose store
search raises a failure: the failure escapes the worker uncaught. -/
theorem Search_err (args : SearchArgs) (h : HDT) (msg : String)
    (hd : args.hdtDocument.hdt = some h)
    (hs : h.search args.subject args.predicate args.object = Except.error msg) :
    HdtDocument.Search args = Except.error (Fault.uncaughtException msg) := by
  rcases args with ⟨⟨od⟩, s, p, o, tr⟩
  dsimp only at hd hs ⊢
  subst hd
  simp [HdtDocument.Search, hs]

/-- The marshaling loop is the componentwise record conversion, in order. -/
theorem marshalTriples_eq_map (ts : List TripleString) :
    marshalTriples ts = ts.map tripleToRecord := by
  induction ts with
  | nil => rfl
  | cons t ts ih => simp [marshalTriples, tripleToRecord, ih]

/-- A store reference present after a run of operations was either attached
by one of them or already present initially. -/
theorem docRun_hdt_some (es : List DocEvent) : ∀ (d : HdtDocument) (h : HDT),
    (docRun d es).hdt = some h → DocEvent.attach h ∈ es ∨ d.hdt = some h := by
  induction es with
  | nil =>
    intro d h hh
    exact Or.inr hh
  | cons e es ih =>
    intro d h hh
    have hh2 : (docRun (docStep d e) es).hdt = some h := hh
    rcases ih (docStep d e) h hh2 with hmem | hnow
    · exact Or.inl (List.mem_cons_of_mem e hmem)
    · cases e with
      | attach h2 =>
        have : some h2 = some h := hnow
        have : h2 = h := Option.some.inj this
        subst this
        exact Or.inl (List.mem_cons_self _ _)
      | destroy =>
        rw [show docStep d DocEvent.destroy = HdtDocument.Destroy d from rfl,
          Destroy_hdt d] at hnow
        exact absurd hnow (by simp)
      | readClosed => exact Or.inr hnow
      | searchSubmit => exact Or.inr hnow

/-! Concrete instances used by counterexamples and witnesses. -/

/-- A search task submitted on a document holding no store reference. -/
def argsClosed : SearchArgs := SearchArgs.init { hdt := none } "a" "b" ""

/-- A store whose search raises the failure message boom. -/
def hdtBoom : HDT := { search := fun _ _ _ => Except.error "boom" }

/-- A search task submitted on a document holding hdtBoom. -/
def argsBoom : SearchArgs := SearchArgs.init { hdt := some hdtBoom } "a" "b" ""

/-- A store whose search yields two triples in encounter order. -/
def hdtAB : HDT :=
  { search := fun _ _ _ =>
      Except.ok [⟨"a", "b", "c"⟩, ⟨"a", "b", "d"⟩] }

/-- A search task submitted on a document holding hdtAB. -/
def argsAB : SearchArgs := SearchArgs.init { hdt := some hdtAB } "a" "b" ""

/-- A store whose search yields no triples. -/
def hdtA : HDT := { search := fun _ _ _ => Except.ok [] }

/-! Claim theorems. -/

/-- Claim C1 counterexample: submitting a search on a closed document (no
store reference held) does not run to an empty-success callback; the worker
phase dereferences the NULL store pointer and the task faults, so the
completion phase never delivers (null, []). -/
theorem closed_search_counterexample :
    searchRun argsClosed = Except.error Fault.nullDeref ∧
    searchRun argsClosed ≠ Except.ok [(none, [])] := by
  refine ⟨rfl, fun hcontra => ?_⟩
  have hc2 : (Except.error Fault.nullDeref :
      Except Fault (List (Option String × List TripleRecord)))
      = Except.ok [(none, [])] := hcontra
  exact Except.noConfusion hc2

/-- Claim C1 amended: for every search submitted on a document handle that
is closed (holds no store reference), the worker phase dereferences the
absent store reference, a native fault; the search does not complete and no
callback is invoked, in particular not with an empty triple list. -/
theorem closed_search_worker_faults (s p o : String) (ts : List TripleString) :
    searchRun (SearchArgs.mk { hdt := none } s p o ts) =
      Except.error Fault.nullDeref := rfl

/-- Claim C2 counterexample: a failure raised by the store search is not
reported through the callback as an error-first result; it crosses the
worker boundary as a raw uncaught fault and the completion phase never
runs. -/
theorem search_failure_counterexample :
    searchRun argsBoom = Except.error (Fault.uncaughtException "boom") ∧
    searchRun argsBoom ≠ Except.ok [(some "boom", [])] := by
  refine ⟨rfl, fun hcontra => ?_⟩
  have hc2 : (Except.error (Fault.uncaughtException "boom") :
      Except Fault (List (Option String × List TripleRecord)))
      = Except.ok [(some "boom", [])] := hcontra
  exact Except.noConfusion hc2

/-- Claim C2 amended: a failure raised by the store search in the worker
phase is not captured at the worker-thread boundary: the worker has no
try/catch, so the failure escapes as a raw fault, the completion phase is
never reached, and the search callback (whose only shape is the success
shape with Null first argument) never reports the error. -/
theorem search_failure_escapes (args : SearchArgs) (h : HDT) (msg : String)
    (hd : args.hdtDocument.hdt = some h)
    (hs : h.search args.subject args.predicate args.object = Except.error msg) :
    searchRun args = Except.error (Fault.uncaughtException msg) ∧
    ∀ a : SearchArgs, (HdtDocument.SearchDone a).map Prod.fst = [none] := by
  refine ⟨?_, fun a => rfl⟩
  have hS := Search_err args h msg hd hs
  simp [searchRun, hS, Except.map]

/-- Claim C2 witness: the amended statement at the concrete failing store. -/
theorem search_failure_escapes_witness :
    searchRun argsBoom = Except.error (Fault.uncaughtException "boom") :=
  (search_failure_escapes argsBoom hdtBoom "boom" rfl rfl).1

/-- Claim C3: for every open request, the callback is invoked exactly once,
on success with (null, document) where the document holds the opened store
reference, on failure with (Error(message), undefined) and no document. -/
theorem open_callback_once_error_first
    (mapIndexedHDT : String → Except String HDT) (filename : String) :
    (openRun mapIndexedHDT filename).length = 1 ∧
    ((∃ h, mapIndexedHDT filename = Except.ok h ∧
        openRun mapIndexedHDT filename = [(none, some { hdt := some h })]) ∨
     (∃ m, mapIndexedHDT filename = Except.error m ∧
        openRun mapIndexedHDT filename = [(some m, none)])) := by
  cases hm : mapIndexedHDT filename with
  | ok h =>
    have hc := Create_ok mapIndexedHDT (CreateArgs.init filename) h hm
    constructor
    · simp [openRun, hc, HdtDocument.CreateDone]
    · exact Or.inl ⟨h, rfl, by simp [openRun, hc, HdtDocument.CreateDone, HdtDocument.New]⟩
  | error m =>
    have hc := Create_error mapIndexedHDT (CreateArgs.init filename) m hm
    have hinit : (CreateArgs.init filename).hdt = none := rfl
    constructor
    · simp [openRun, hc, HdtDocument.CreateDone, hinit]
    · exact Or.inr ⟨m, rfl, by simp [openRun, hc, HdtDocument.CreateDone, hinit]⟩

/-- Claim C4: for every successful search, the completion phase converts the
materialized triple list into the boundary records, one record per triple,
in the same encounter order in which the store iterator produced them. -/
theorem search_marshaling_preserves_order (args : SearchArgs) (h : HDT)
    (ts : List TripleString)
    (hd : args.hdtDocument.hdt = some h) (h0 : args.triples = [])
    (hs : h.search args.subject args.predicate args.object = Except.ok ts) :
    searchRun args = Except.ok [(none, marshalTriples ts)] ∧
    marshalTriples ts = ts.map tripleToRecord ∧
    (marshalTriples ts).length = ts.length := by
  refine ⟨?_, marshalTriples_eq_map ts, by simp [marshalTriples_eq_map]⟩
  have hS := Search_ok args h ts hd hs
  simp [searchRun, hS, HdtDocument.SearchDone, h0, Except.map]

/-- Claim C4 witness: the concrete two-triple store yields exactly its two
triples, marshaled in encounter order. -/
theorem search_marshaling_witness :
    searchRun argsAB =
      Except.ok [(none, marshalTriples [⟨"a", "b", "c"⟩, ⟨"a", "b", "d"⟩])] :=
  (search_marshaling_preserves_order argsAB hdtAB
    [⟨"a", "b", "c"⟩, ⟨"a", "b", "d"⟩] rfl rfl rfl).1

/-- Claim C5: close/destroy is idempotent: destroying twice equals destroying
once, the destroyed state holds no store reference (one-way transition), a
second close leaves the state exactly as the first left it, and the second
close still produces no error (its callback, when supplied, gets Null). -/
theorem close_idempotent (d : HdtDocument) (a1 a2 : List JsValue) :
    HdtDocument.Destroy (HdtDocument.Destroy d) = HdtDocument.Destroy d ∧
    (HdtDocument.Destroy d).hdt = none ∧
    (HdtDocument.Close (HdtDocument.Close d a1).1 a2).1 =
      (HdtDocument.Close d a1).1 ∧
    (HdtDocument.Close (HdtDocument.Close d a1).1 a2).2 =
      (if callbackSupplied a2 then [[JsValue.vnull]] else []) := by
  have hidem : HdtDocument.Destroy (HdtDocument.Destroy d) = HdtDocument.Destroy d := by
    unfold HdtDocument.Destroy
    cases h : d.hdt <;> simp [h]
  refine ⟨hidem, Destroy_hdt d, ?_, Close_snd _ a2⟩
  rw [Close_fst, Close_fst]
  exact hidem

/-- Claim C6: close takes effect synchronously: the state it returns reads
closed, and it invokes the supplied callback with argv [Null] exactly when a
callback function was supplied as the first argument. -/
theorem close_sync_and_callback_iff (d : HdtDocument) (args : List JsValue) :
    (HdtDocument.ClosedGetter (HdtDocument.Close d args).1).1 = true ∧
    ((HdtDocument.Close d args).2 = [[JsValue.vnull]] ↔
      callbackSupplied args = true) ∧
    ((HdtDocument.Close d args).2 = [] ↔ callbackSupplied args = false) := by
  refine ⟨?_, ?_, ?_⟩
  · rw [Close_fst]
    simp [HdtDocument.ClosedGetter, Destroy_hdt d]
  · rw [Close_snd]
    cases h : callbackSupplied args <;> simp
  · rw [Close_snd]
    cases h : callbackSupplied args <;> simp

/-- Claim C7: the closed getter reads true exactly when the document holds no
store reference, and it is a pure observation: the document it reads is
returned unchanged. -/
theorem closed_getter_iff_no_store (d : HdtDocument) :
    ((HdtDocument.ClosedGetter d).1 = true ↔ d.hdt = none) ∧
    (HdtDocument.ClosedGetter d).2 = d := by
  constructor
  · cases h : d.hdt <;> simp [HdtDocument.ClosedGetter, h]
  · rfl

/-- Claim C8: malformed arity at the boundary fails the assertion: a
createHdtDocument call without exactly 2 arguments and a _search call
without exactly 4 arguments both abort before queuing any task, so no
callback ever reports the misuse as a runtime error. -/
theorem boundary_arity_asserts (cargs : List JsValue) (doc : HdtDocument)
    (sargs : List JsValue) (hc : cargs.length ≠ 2) (hs : sargs.length ≠ 4) :
    HdtDocument.CreateAsync cargs = Except.error Fault.assertionFailure ∧
    HdtDocument.SearchAsync doc sargs = Except.error Fault.assertionFailure := by
  constructor
  · simp [HdtDocument.CreateAsync, hc]
  · simp [HdtDocument.SearchAsync, hs]

/-- Claim C8 witness: concrete malformed calls, with 3 and 1 arguments. -/
theorem boundary_arity_asserts_witness :
    HdtDocument.CreateAsync [JsValue.vstr "f", JsValue.vfun 0, JsValue.vnull] =
      Except.error Fault.assertionFailure ∧
    HdtDocument.SearchAsync { hdt := none } [JsValue.vstr "s"] =
      Except.error Fault.assertionFailure :=
  boundary_arity_asserts [JsValue.vstr "f", JsValue.vfun 0, JsValue.vnull]
    { hdt := none } [JsValue.vstr "s"] (by decide) (by decide)

/-- Claim C9: the submission-time snapshot is all the worker phase reads:
for both the open task and the search task, changing the contents the caller
buffers have at worker time (while the submission-time contents stay fixed)
changes neither the task outcome nor the delivered callback. -/
theorem inputs_snapshotted_at_submission
    (mapIndexedHDT : String → Except String HDT) (doc : HdtDocument)
    (f s p o w1 w2 w3 w4 u1 u2 u3 u4 : String) :
    HdtDocument.CreateDone
        (HdtDocument.Create mapIndexedHDT (createSnapshot ⟨f, w1⟩)) =
      HdtDocument.CreateDone
        (HdtDocument.Create mapIndexedHDT (createSnapshot ⟨f, u1⟩)) ∧
    searchRun (searchSnapshot doc ⟨s, w2⟩ ⟨p, w3⟩ ⟨o, w4⟩) =
      searchRun (searchSnapshot doc ⟨s, u2⟩ ⟨p, u3⟩ ⟨o, u4⟩) :=
  ⟨rfl, rfl⟩

/-- Claim C10: a freshly constructed document holds no store reference and
reads closed; across any sequence of the operations that touch the hdt
member, a held store reference can only be one attached by the open
completion phase: every reference held traces to an attach event. -/
theorem handle_state_invariant :
    HdtDocument.New.hdt = none ∧
    (HdtDocument.ClosedGetter HdtDocument.New).1 = true ∧
    ∀ (es : List DocEvent) (h : HDT),
      (docRun HdtDocument.New es).hdt = some h → DocEvent.attach h ∈ es := by
  refine ⟨rfl, rfl, fun es h hh => ?_⟩
  rcases docRun_hdt_some es HdtDocument.New h hh with hmem | habs
  · exact hmem
  · exact absurd habs (by simp [HdtDocument.New])

/-- Claim C10 witness: after a single attach event the document holds that
store, and the attach event is indeed in the event list. -/
theorem handle_state_invariant_witness :
    DocEvent.attach hdtA ∈ [DocEvent.attach hdtA] :=
  handle_state_invariant.2.2 [DocEvent.attach hdtA] hdtA rfl
